import Mathlib

/-!
Verification of the runa execution engine sources against their
natural-language specification.

Shallow embedding of:
- the offset-based context-message model (src/runa/context.py);
- the engine operation `complete` (spec sections 4.4, 6 and 7; the
  implementing module `execution_completion`, which the tests under
  tests/execution and tests/model use, is not among the sources, so that
  operation is modelled from the spec);
- the id-based engine `Runa.execute` (src/runa/execution.py);
- the interception layer of src/runa/execution.py and the entity contract
  of src/runa/model/entity.py.
-/

/-- Runtime values exchanged in messages: numbers, strings, the None/unit
value, and entity references.  A reference is a numeric handle; two
references are the same object exactly when their handles are equal, which
models CPython identity (`is`) within one process. -/
inductive Val
  | nat (n : Nat)
  | str (s : String)
  | unit
  | ref (handle : Nat)
deriving DecidableEq

/-- Keyword arguments: an association list of names to values, modelling a
Python kwargs dict compared by `==`. -/
abbrev KW := List (String × Val)

/-- A captured domain error: its type tag with the positional and keyword
arguments of its construction.  Only these three are persisted (spec
section 3, Error; src/runa/error.py). -/
structure ErrRecord where
  ty : String
  args : List Val
  kwargs : KW
deriving DecidableEq

namespace Execution

/-- Context messages of the offset-based model, translated field by field
from src/runa/context.py.  The `method` fields hold the method's stable
name within its type (spec section 9, method identity). -/
inductive Msg
  | createEntityRequestSent (offset trace : Nat) (entityType : String) (args : List Val) (kwargs : KW)
  | createEntityRequestReceived (offset : Nat) (args : List Val) (kwargs : KW)
  | createEntityResponseSent (offset requestOffset : Nat)
  | createEntityResponseReceived (offset requestOffset : Nat) (response : Val)
  | createEntityErrorSent (offset requestOffset : Nat) (err : ErrRecord)
  | createEntityErrorReceived (offset requestOffset : Nat) (err : ErrRecord)
  | entityMethodRequestSent (offset trace : Nat) (receiver : Val) (method : String) (args : List Val) (kwargs : KW)
  | entityMethodRequestReceived (offset : Nat) (method : String) (args : List Val) (kwargs : KW)
  | entityMethodResponseSent (offset requestOffset : Nat) (response : Val)
  | entityMethodResponseReceived (offset requestOffset : Nat) (response : Val)
  | entityMethodErrorSent (offset requestOffset : Nat) (err : ErrRecord)
  | entityMethodErrorReceived (offset requestOffset : Nat) (err : ErrRecord)
  | serviceMethodRequestSent (offset trace : Nat) (serviceType : String) (method : String) (args : List Val) (kwargs : KW)
  | serviceMethodResponseReceived (offset requestOffset : Nat) (response : Val)
  | serviceMethodErrorReceived (offset requestOffset : Nat) (exc : Nat)
  | entityStateChanged (offset : Nat) (state : Val)
deriving DecidableEq

/-- The offset carried by a message. -/
def Msg.offset : Msg → Nat
  | .createEntityRequestSent o .. => o
  | .createEntityRequestReceived o .. => o
  | .createEntityResponseSent o _ => o
  | .createEntityResponseReceived o .. => o
  | .createEntityErrorSent o .. => o
  | .createEntityErrorReceived o .. => o
  | .entityMethodRequestSent o .. => o
  | .entityMethodRequestReceived o .. => o
  | .entityMethodResponseSent o .. => o
  | .entityMethodResponseReceived o .. => o
  | .entityMethodErrorSent o .. => o
  | .entityMethodErrorReceived o .. => o
  | .serviceMethodRequestSent o .. => o
  | .serviceMethodResponseReceived o .. => o
  | .serviceMethodErrorReceived o .. => o
  | .entityStateChanged o _ => o

/-- The error taxonomy of spec section 7.  `missingPending` stands for the
lookup failure when a response names no pending request, and
`unexpectedOutput` for an outbound input message arriving while the
expected-outputs queue is empty; the spec gives neither a name. -/
inductive EngErr
  | cacheMiss
  | unorderedOffsets
  | inconsistentContext
  | unknownMethod
  | orphanedError
  | uncaughtForeignError
  | missingPending
  | unexpectedOutput
deriving DecidableEq

/-- An outgoing request a task is about to emit, without the engine-assigned
offset and trace (spec section 4.2: each yield produces an outgoing message
describing the intent). -/
inductive Intent
  | createEntity (entityType : String) (args : List Val) (kwargs : KW)
  | entityMethod (receiver : Val) (method : String) (args : List Val) (kwargs : KW)
  | serviceMethod (serviceType : String) (method : String) (args : List Val) (kwargs : KW)

/-- A cooperatively scheduled task (spec section 4.2), as the tree of its
interaction points.  A terminal carries the subject state as the task left
it; a suspension carries the continuations for a response value, for an
injected reconstructed domain error, and for an injected opaque foreign
error.  `raised none` is a domain error whose construction the weak error
table never captured (spec section 4.4: surfaced as OrphanedError);
`raisedForeign` is a foreign error the task let escape. -/
inductive Task
  | ret (value : Val) (state : Val)
  | raised (captured : Option ErrRecord) (state : Val)
  | raisedForeign
  | pend (intent : Intent) (onOk : Val → Task) (onErr : ErrRecord → Task) (onForeign : Nat → Task)

/-- Which kind of initiator a task serves, with the initiator's offset
(spec glossary: Initiator). -/
inductive Initiator
  | create (requestOffset : Nat)
  | method (requestOffset : Nat)

/-- The subject type's behaviour: its initializer and its method table.
`methods` returns none for a name outside the table (spec section 4.4:
UnknownMethod); a method runs from the current subject state. -/
structure EntityBehavior where
  init : List Val → KW → Task
  methods : String → Option (Option Val → List Val → KW → Task)

/-- A suspended task retained by the engine, keyed in the pending table by
the offset of its most recent outgoing request (spec section 3,
Lifecycles). -/
structure PendingEntry where
  trace : Nat
  initc : Initiator
  onOk : Val → Task
  onErr : ErrRecord → Task
  onForeign : Nat → Task

/-- Modelled from the spec: the engine state between `complete` calls
(spec sections 4.4 and 6) of the absent `execution_completion` module —
the cached context, the pending-task table and the subject slot
(none = uninitialised). -/
structure Engine where
  ctx : List Msg
  pending : List (Nat × PendingEntry)
  subject : Option Val

/-- The state of one `complete` call: engine fields plus the call-local
expected-outputs queue and offset counter. -/
structure CallSt where
  ctx : List Msg
  pending : List (Nat × PendingEntry)
  subject : Option Val
  queue : List Msg
  ctr : Nat

/-- Builds the outbound request message for a suspension, stamping the
fresh offset and the originating initiator's trace offset. -/
def mkSent (offset trace : Nat) : Intent → Msg
  | .createEntity ty args kw => .createEntityRequestSent offset trace ty args kw
  | .entityMethod recv m args kw => .entityMethodRequestSent offset trace recv m args kw
  | .serviceMethod ty m args kw => .serviceMethodRequestSent offset trace ty m args kw

/-- Modelled from the spec: the task step of spec section 4.4 for the absent
engine.  On suspension the task is stored in the pending table keyed by the
request's offset; on return the initiator-appropriate terminal pair is
queued; on a captured domain error the error-sent message is queued, with a
state snapshot only for a method initiator; an uncaptured domain error is
OrphanedError and an escaped foreign error is UncaughtForeignError.  Every
queued message pre-increments the offset counter. -/
def runTask (cs : CallSt) (trace : Nat) (initc : Initiator) : Task → Except EngErr CallSt
  | .pend intent onOk onErr onForeign =>
      .ok { cs with
              ctr := cs.ctr + 1,
              queue := cs.queue ++ [mkSent cs.ctr trace intent],
              pending := cs.pending ++ [(cs.ctr, ⟨trace, initc, onOk, onErr, onForeign⟩)] }
  | .ret v st =>
      match initc with
      | .create rq =>
          .ok { cs with
                  ctr := cs.ctr + 2, subject := some st,
                  queue := cs.queue ++
                    [.createEntityResponseSent cs.ctr rq, .entityStateChanged (cs.ctr + 1) st] }
      | .method rq =>
          .ok { cs with
                  ctr := cs.ctr + 2, subject := some st,
                  queue := cs.queue ++
                    [.entityMethodResponseSent cs.ctr rq v, .entityStateChanged (cs.ctr + 1) st] }
  | .raised none _ => .error .orphanedError
  | .raised (some e) st =>
      match initc with
      | .create rq =>
          .ok { cs with
                  ctr := cs.ctr + 1,
                  queue := cs.queue ++ [.createEntityErrorSent cs.ctr rq e] }
      | .method rq =>
          .ok { cs with
                  ctr := cs.ctr + 2, subject := some st,
                  queue := cs.queue ++
                    [.entityMethodErrorSent cs.ctr rq e, .entityStateChanged (cs.ctr + 1) st] }
  | .raisedForeign => .error .uncaughtForeignError

/-- Removes a pending entry by key, returning it with the remaining table. -/
def popPending (table : List (Nat × PendingEntry)) (rq : Nat) :
    Option (PendingEntry × List (Nat × PendingEntry)) :=
  match table with
  | [] => none
  | (k, en) :: rest =>
      if k = rq then some (en, rest)
      else match popPending rest rq with
        | none => none
        | some (found, rest') => some (found, (k, en) :: rest')

/-- Matched-output handling (spec section 4.4): pop the head of the
expected-outputs queue, require full structural equality, append to
context; the offset counter was advanced by the producer, not here. -/
def matchOutput (cs : CallSt) (m : Msg) : Except EngErr CallSt :=
  match cs.queue with
  | [] => .error .unexpectedOutput
  | e :: rest =>
      if m = e then .ok { cs with queue := rest, ctx := cs.ctx ++ [m] }
      else .error .inconsistentContext

/-- Resumes the pending task bound to a response's request offset with the
response value (spec section 4.4, response received). -/
def resumeOk (cs : CallSt) (m : Msg) (off rq : Nat) (v : Val) : Except EngErr CallSt :=
  if off < cs.ctr then .error .unorderedOffsets
  else match popPending cs.pending rq with
    | none => .error .missingPending
    | some (en, rest) =>
        runTask { cs with pending := rest, ctx := cs.ctx ++ [m], ctr := off + 1 }
          en.trace en.initc (en.onOk v)

/-- Resumes the pending task with a reconstructed domain error thrown into
it (spec section 4.4, error received). -/
def resumeErr (cs : CallSt) (m : Msg) (off rq : Nat) (e : ErrRecord) : Except EngErr CallSt :=
  if off < cs.ctr then .error .unorderedOffsets
  else match popPending cs.pending rq with
    | none => .error .missingPending
    | some (en, rest) =>
        runTask { cs with pending := rest, ctx := cs.ctx ++ [m], ctr := off + 1 }
          en.trace en.initc (en.onErr e)

/-- Resumes the pending task with the carried opaque foreign exception
thrown into it (spec sections 4.4 and 4.6, service errors). -/
def resumeForeign (cs : CallSt) (m : Msg) (off rq exc : Nat) : Except EngErr CallSt :=
  if off < cs.ctr then .error .unorderedOffsets
  else match popPending cs.pending rq with
    | none => .error .missingPending
    | some (en, rest) =>
        runTask { cs with pending := rest, ctx := cs.ctx ++ [m], ctr := off + 1 }
          en.trace en.initc (en.onForeign exc)

/-- Modelled from the spec: forward processing of one input message
(spec section 4.4 step 2) for the absent engine. -/
def processMsg (b : EntityBehavior) (cs : CallSt) : Msg → Except EngErr CallSt
  | m@(.createEntityRequestReceived off args kw) =>
      if off < cs.ctr then .error .unorderedOffsets
      else runTask { cs with ctx := cs.ctx ++ [m], ctr := off + 1 }
             off (.create off) (b.init args kw)
  | m@(.entityMethodRequestReceived off mid args kw) =>
      if off < cs.ctr then .error .unorderedOffsets
      else match b.methods mid with
        | none => .error .unknownMethod
        | some f =>
            runTask { cs with ctx := cs.ctx ++ [m], ctr := off + 1 }
              off (.method off) (f cs.subject args kw)
  | m@(.createEntityResponseReceived off rq v) => resumeOk cs m off rq v
  | m@(.entityMethodResponseReceived off rq v) => resumeOk cs m off rq v
  | m@(.serviceMethodResponseReceived off rq v) => resumeOk cs m off rq v
  | m@(.createEntityErrorReceived off rq e) => resumeErr cs m off rq e
  | m@(.entityMethodErrorReceived off rq e) => resumeErr cs m off rq e
  | m@(.serviceMethodErrorReceived off rq exc) => resumeForeign cs m off rq exc
  | m@(.createEntityRequestSent ..) => matchOutput cs m
  | m@(.entityMethodRequestSent ..) => matchOutput cs m
  | m@(.serviceMethodRequestSent ..) => matchOutput cs m
  | m@(.createEntityResponseSent ..) => matchOutput cs m
  | m@(.entityMethodResponseSent ..) => matchOutput cs m
  | m@(.createEntityErrorSent ..) => matchOutput cs m
  | m@(.entityMethodErrorSent ..) => matchOutput cs m
  | m@(.entityStateChanged off st) =>
      match cs.queue with
      | e :: rest =>
          if m = e then
            .ok { cs with queue := rest, ctx := cs.ctx ++ [m], subject := some st }
          else .error .inconsistentContext
      | [] =>
          if off < cs.ctr then .error .unorderedOffsets
          else .ok { cs with ctx := cs.ctx ++ [m], subject := some st, ctr := off + 1 }

/-- Processes the remaining input suffix in order, aborting at the first
failure. -/
def processAll (b : EntityBehavior) (cs : CallSt) : List Msg → Except EngErr CallSt
  | [] => .ok cs
  | m :: rest =>
      match processMsg b cs m with
      | .error err => .error err
      | .ok cs' => processAll b cs' rest

/-- Step 1 of spec section 4.4: each message already in the cached context
must be matched, in order and by structural equality, by the next input
element. -/
def matchesCache : List Msg → List Msg → Bool
  | [], _ => true
  | _ :: _, [] => false
  | c :: ctl, i :: itl => if c = i then matchesCache ctl itl else false

/-- One past the last cached offset, or zero for an empty context
(spec sections 4.4 step 1 and 6, Construct). -/
def nextOffset (ctx : List Msg) : Nat :=
  match ctx.getLast? with
  | none => 0
  | some m => m.offset + 1

/-- Modelled from the spec: `complete` of the absent `execution_completion`
engine (spec sections 4.4 and 6).  The cached context must be a prefix of
the input (else CacheMiss); the remaining suffix is processed; the
unmatched remainder of the expected-outputs queue is flushed onto the
context and returned as the newly produced outputs. -/
def complete (b : EntityBehavior) (E : Engine) (input : List Msg) :
    Except EngErr (Engine × List Msg) :=
  if matchesCache E.ctx input then
    match processAll b
        { ctx := E.ctx, pending := E.pending, subject := E.subject,
          queue := [], ctr := nextOffset E.ctx }
        (input.drop E.ctx.length) with
    | .error err => .error err
    | .ok cs => .ok ({ ctx := cs.ctx ++ cs.queue, pending := cs.pending, subject := cs.subject }, cs.queue)
  else .error .cacheMiss

/-- The counter entity of the tests (tests/execution/test_entity_change_state.py):
its initializer stores the given value, `increment` adds a delta. -/
def counterB : EntityBehavior where
  init := fun args _ => .ret .unit (args.headD .unit)
  methods := fun mid =>
    if mid = "increment" then
      some (fun st args _ =>
        match st, args with
        | some (.nat n), [.nat d] => .ret .unit (.nat (n + d))
        | _, _ => .ret .unit .unit)
    else none

/-- A freshly constructed engine: uninitialised subject slot, empty cached
context (spec section 6, Construct). -/
def fE0 : Engine := { ctx := [], pending := [], subject := none }

/-- Scenario 1 input: the first-initialization request. -/
def inputC1 : List Msg := [.createEntityRequestReceived 0 [.nat 10] []]

/-- Scenario 1 expected output. -/
def outC1 : List Msg := [.createEntityResponseSent 1 0, .entityStateChanged 2 (.nat 10)]

/-- The engine after scenario 1 completes. -/
def fE1 : Engine :=
  { ctx := [.createEntityRequestReceived 0 [.nat 10] [],
            .createEntityResponseSent 1 0,
            .entityStateChanged 2 (.nat 10)],
    pending := [],
    subject := some (.nat 10) }

end Execution

namespace Runa

/-- Context messages of the id-based engine, translated field by field from
src/runa/execution.py.  Message ids are uuid7 hex strings there, generated
fresh by `_generate_event_id`; the model stands them in by naturals drawn
from a counter, which preserves exactly what the code relies on:
uniqueness.  The source names beginning `Initialize...` appear here as
`init...`. -/
inductive RMsg
  | initRequestReceived (id : Nat) (args : List Val) (kwargs : KW)
  | initResponseSent (id requestId : Nat)
  | stateChanged (id : Nat) (state : Val)
  | requestReceived (id : Nat) (methodName : String) (args : List Val) (kwargs : KW)
  | responseSent (id requestId : Nat) (response : Val)
  | createEntityRequestSent (id : Nat) (entityType : String) (args : List Val) (kwargs : KW)
  | createEntityResponseReceived (id requestId : Nat) (entity : Val)
  | entityRequestSent (id traceId : Nat) (receiver : Val) (methodName : String) (args : List Val) (kwargs : KW)
  | entityResponseReceived (id requestId : Nat) (response : Val)
  | serviceRequestSent (id traceId : Nat) (serviceType : String) (methodName : String) (args : List Val) (kwargs : KW)
  | serviceResponseReceived (id requestId : Nat) (response : Val)
deriving DecidableEq

/-- The id carried by a message. -/
def RMsg.mid : RMsg → Nat
  | .initRequestReceived i .. => i
  | .initResponseSent i _ => i
  | .stateChanged i _ => i
  | .requestReceived i .. => i
  | .responseSent i .. => i
  | .createEntityRequestSent i .. => i
  | .createEntityResponseReceived i .. => i
  | .entityRequestSent i .. => i
  | .entityResponseReceived i .. => i
  | .serviceRequestSent i .. => i
  | .serviceResponseReceived i .. => i

/-- The same message with its id replaced.  Two messages agree on every
field other than the id exactly when setting both ids to zero makes them
equal. -/
def setRId (n : Nat) : RMsg → RMsg
  | .initRequestReceived _ a k => .initRequestReceived n a k
  | .initResponseSent _ rq => .initResponseSent n rq
  | .stateChanged _ st => .stateChanged n st
  | .requestReceived _ mn a k => .requestReceived n mn a k
  | .responseSent _ rq v => .responseSent n rq v
  | .createEntityRequestSent _ ty a k => .createEntityRequestSent n ty a k
  | .createEntityResponseReceived _ rq ent => .createEntityResponseReceived n rq ent
  | .entityRequestSent _ tr recv mn a k => .entityRequestSent n tr recv mn a k
  | .entityResponseReceived _ rq v => .entityResponseReceived n rq v
  | .serviceRequestSent _ tr ty mn a k => .serviceRequestSent n tr ty mn a k
  | .serviceResponseReceived _ rq v => .serviceResponseReceived n rq v

/-- The outbound kinds of the id-based engine: the two terminal `*Sent`
messages and the three intercepted `*RequestSent` messages. -/
def isOutbound : RMsg → Bool
  | .initResponseSent .. => true
  | .responseSent .. => true
  | .createEntityRequestSent .. => true
  | .entityRequestSent .. => true
  | .serviceRequestSent .. => true
  | _ => false

/-- The three intercepted request kinds, whose matched-output branch also
re-keys the executions table. -/
def isReqSent : RMsg → Bool
  | .createEntityRequestSent .. => true
  | .entityRequestSent .. => true
  | .serviceRequestSent .. => true
  | _ => false

/-- The failures `Runa.execute` can raise: NotImplementedError("Inconsistent
execution context"), deque popleft on an empty expectations queue
(IndexError), a KeyError from `executions.pop`, and the AttributeError from
looking up an unknown method name on the entity type. -/
inductive RErr
  | inconsistentContext
  | emptyExpectations
  | missingExecution
  | unknownMethod
deriving DecidableEq

/-- An outgoing request a task yields at an interception point
(src/runa/execution.py, `_intercept_create_entity`,
`_intercept_send_entity_request`, `_intercept_send_service_request`). -/
inductive RIntent
  | createEntity (entityType : String) (args : List Val) (kwargs : KW)
  | entityMethod (receiver : Val) (methodName : String) (args : List Val) (kwargs : KW)
  | serviceMethod (serviceType : String) (methodName : String) (args : List Val) (kwargs : KW)

/-- A greenlet task of the id-based engine as the tree of its switch
points.  The engine has no error routing: a task either returns (carrying
its return value and the subject state it left) or suspends awaiting a
response value. -/
inductive RTask
  | ret (value : Val) (state : Val)
  | pend (intent : RIntent) (resume : Val → RTask)

/-- Which initial message spawned a task (`initial_messages` in the
source), with that message's id. -/
inductive RInitiator
  | initOf (requestId : Nat)
  | callOf (requestId : Nat)

/-- The subject type's behaviour for the id-based engine: `__init__` and
the method table looked up by `getattr(entity_type, name)`. -/
structure RBehavior where
  init : List Val → KW → RTask
  methods : String → Option (Option Val → List Val → KW → RTask)

/-- A suspended greenlet retained in `executions`, together with the entry
of `initial_messages` for it. -/
structure ExecEntry where
  initc : RInitiator
  resume : Val → RTask

/-- The `Runa` engine state (src/runa/execution.py, `Runa.__init__`):
subject slot (Entity.__new__, uninitialised), the executions table keyed by
interception-message id, the expectations deque, the cached context, and
the stand-in counter for `_generate_event_id`. -/
structure RunaState where
  entityState : Option Val
  executions : List (Nat × ExecEntry)
  expectations : List RMsg
  context : List RMsg
  nextId : Nat

/-- Dictionary lookup in the executions table. -/
def lookupExec : List (Nat × ExecEntry) → Nat → Option ExecEntry
  | [], _ => none
  | (k, en) :: rest, key => if k = key then some en else lookupExec rest key

/-- Dictionary removal (`executions.pop`). -/
def removeExec : List (Nat × ExecEntry) → Nat → List (Nat × ExecEntry)
  | [], _ => []
  | (k, en) :: rest, key => if k = key then rest else (k, en) :: removeExec rest key

/-- Builds the interception message for a yield, stamping a fresh id; the
trace id is the id of the inbound event being processed when the task last
resumed (`trace_id = event.id` in every branch of the source). -/
def mkRSent (id trace : Nat) : RIntent → RMsg
  | .createEntity ty a k => .createEntityRequestSent id ty a k
  | .entityMethod recv mn a k => .entityRequestSent id trace recv mn a k
  | .serviceMethod ty mn a k => .serviceRequestSent id trace ty mn a k

/-- Runs a task until it suspends or dies (the shared tail of the initial
and response branches of `Runa.execute`, src/runa/execution.py lines
150-181 and analogues): a suspension is stored in `executions` keyed by the
fresh interception-message id and queued as an expectation; a dead task
queues the initiator-appropriate terminal pair, namely
`InitializeResponseSent`/`ResponseSent` followed by a `StateChanged`
snapshot of the subject. -/
def rTaskStep (s : RunaState) (trace : Nat) (initc : RInitiator) : RTask → RunaState
  | .pend intent resume =>
      { s with nextId := s.nextId + 1,
               executions := s.executions ++ [(s.nextId, ⟨initc, resume⟩)],
               expectations := s.expectations ++ [mkRSent s.nextId trace intent] }
  | .ret v st =>
      match initc with
      | .initOf rq =>
          { s with nextId := s.nextId + 2, entityState := some st,
                   expectations := s.expectations ++
                     [.initResponseSent s.nextId rq, .stateChanged (s.nextId + 1) st] }
      | .callOf rq =>
          { s with nextId := s.nextId + 2, entityState := some st,
                   expectations := s.expectations ++
                     [.responseSent s.nextId rq v, .stateChanged (s.nextId + 1) st] }

/-- The expectation comparison of the matched-output branches of
`Runa.execute` (src/runa/execution.py lines 366-428), field by field as the
source writes it: the message id is never compared; the receiver, the
service type and the method names are compared with `is`, which for the
receiver is reference identity and holds of the strings the source ever
compares exactly when they are equal. -/
def matchesExpectation : RMsg → RMsg → Bool
  | .createEntityRequestSent _ ty a k, .createEntityRequestSent _ ty' a' k' =>
      decide (ty = ty') && decide (a = a') && decide (k = k')
  | .entityRequestSent _ tr recv mn a k, .entityRequestSent _ tr' recv' mn' a' k' =>
      decide (tr = tr') && decide (recv = recv') && decide (mn = mn') &&
        decide (a = a') && decide (k = k')
  | .serviceRequestSent _ tr ty mn a k, .serviceRequestSent _ tr' ty' mn' a' k' =>
      decide (tr = tr') && decide (ty = ty') && decide (mn = mn') &&
        decide (a = a') && decide (k = k')
  | .initResponseSent _ rq, .initResponseSent _ rq' => decide (rq = rq')
  | .responseSent _ rq v, .responseSent _ rq' v' => decide (rq = rq') && decide (v = v')
  | .stateChanged _ st, .stateChanged _ st' => decide (st = st')
  | _, _ => false

/-- The matched-output branch for the three intercepted request kinds
(src/runa/execution.py lines 366-405): popleft the expectations deque,
compare, re-key the suspended execution from the expectation's id to the
event's id, append the event. -/
def reqSentStep (s : RunaState) (e : RMsg) : RunaState × Option RErr :=
  match s.expectations with
  | [] => (s, some .emptyExpectations)
  | x :: rest =>
      if matchesExpectation e x then
        match lookupExec s.executions x.mid with
        | none => ({ s with expectations := rest }, some .missingExecution)
        | some en =>
            ({ s with expectations := rest,
                      executions := removeExec s.executions x.mid ++ [(e.mid, en)],
                      context := s.context ++ [e] }, none)
      else ({ s with expectations := rest }, some .inconsistentContext)

/-- The matched-output branch for the two terminal `*Sent` kinds
(src/runa/execution.py lines 410-428). -/
def finalSentStep (s : RunaState) (e : RMsg) : RunaState × Option RErr :=
  match s.expectations with
  | [] => (s, some .emptyExpectations)
  | x :: rest =>
      if matchesExpectation e x then
        ({ s with expectations := rest, context := s.context ++ [e] }, none)
      else ({ s with expectations := rest }, some .inconsistentContext)

/-- One iteration of the event loop of `Runa.execute`
(src/runa/execution.py lines 133-444), returning the mutated state and the
failure, when one is raised at this event.  State mutations that the source
performs before raising (the popleft of the expectations deque) are kept,
matching the in-place mutation of the Python object. -/
def runaStep (b : RBehavior) (s : RunaState) : RMsg → RunaState × Option RErr
  | e@(.initRequestReceived _ args kw) =>
      (rTaskStep { s with context := s.context ++ [e] }
        e.mid (.initOf e.mid) (b.init args kw), none)
  | e@(.requestReceived _ mn args kw) =>
      match b.methods mn with
      | none => (s, some .unknownMethod)
      | some f =>
          (rTaskStep { s with context := s.context ++ [e] }
            e.mid (.callOf e.mid) (f s.entityState args kw), none)
  | e@(.createEntityResponseReceived _ rq ent) =>
      match lookupExec s.executions rq with
      | none => (s, some .missingExecution)
      | some en =>
          (rTaskStep { s with executions := removeExec s.executions rq,
                              context := s.context ++ [e] }
            e.mid en.initc (en.resume ent), none)
  | e@(.entityResponseReceived _ rq v) =>
      match lookupExec s.executions rq with
      | none => (s, some .missingExecution)
      | some en =>
          (rTaskStep { s with executions := removeExec s.executions rq,
                              context := s.context ++ [e] }
            e.mid en.initc (en.resume v), none)
  | e@(.serviceResponseReceived _ rq v) =>
      match lookupExec s.executions rq with
      | none => (s, some .missingExecution)
      | some en =>
          (rTaskStep { s with executions := removeExec s.executions rq,
                              context := s.context ++ [e] }
            e.mid en.initc (en.resume v), none)
  | e@(.createEntityRequestSent ..) => reqSentStep s e
  | e@(.entityRequestSent ..) => reqSentStep s e
  | e@(.serviceRequestSent ..) => reqSentStep s e
  | e@(.initResponseSent ..) => finalSentStep s e
  | e@(.responseSent ..) => finalSentStep s e
  | e@(.stateChanged _ st) =>
      match s.expectations with
      | [] => ({ s with context := s.context ++ [e], entityState := some st }, none)
      | x :: rest =>
          if matchesExpectation e x then
            ({ s with expectations := rest, context := s.context ++ [e],
                      entityState := some st }, none)
          else ({ s with expectations := rest }, some .inconsistentContext)

/-- `Runa.execute` (src/runa/execution.py lines 133-447): the event loop
over the input, stopping at the first raised failure with the engine left
as mutated so far; on success the context is extended with the expectations
deque, which the source does not clear. -/
def runaExecute (b : RBehavior) : RunaState → List RMsg → RunaState × Option RErr
  | s, [] => ({ s with context := s.context ++ s.expectations }, none)
  | s, m :: rest =>
      match runaStep b s m with
      | (s', none) => runaExecute b s' rest
      | (s', some err) => (s', some err)

/-- A freshly constructed `Runa` engine (src/runa/execution.py,
`Runa.__init__`).  The id counter starts at 100 so that generated ids are
visibly distinct from the small ids used in concrete inputs. -/
def rFresh : RunaState :=
  { entityState := none, executions := [], expectations := [], context := [], nextId := 100 }

/-- A behaviour whose initializer returns at once, storing the state
computed from its arguments, with an empty method table. -/
def retBehavior (g : List Val → KW → Val) : RBehavior where
  init := fun a k => .ret .unit (g a k)
  methods := fun _ => none

/-- The counter behaviour for the id-based engine: `__init__` stores its
first argument. -/
def counterRB : RBehavior := retBehavior (fun a _ => a.headD .unit)

end Runa

namespace Intercept

/-- The three process-global slots the interception layer patches
(src/runa/execution.py): `Entity.__new__`, `Entity.__getattribute__` and
`Service.__getattribute__`.  A slot holds a function; the model names each
function by a numeric token, since only which function sits in the slot
matters. -/
structure Patches where
  entityNew : Nat
  entityGetattr : Nat
  serviceGetattr : Nat
deriving DecidableEq

/-- The tokens of the three wrapper functions an engine installs. -/
structure Hooks where
  newHook : Nat
  entityGetHook : Nat
  serviceGetHook : Nat

/-- `_intercept_create_entity` (src/runa/execution.py lines 465-490): saves
`Entity.__new__`, installs the wrapper, runs the body, and in the finally
block restores the saved value to `Entity.__new__`. -/
def interceptCreateEntity (h : Hooks) (p : Patches) (body : Patches → Patches) : Patches :=
  let saved := p.entityNew
  let after := body { p with entityNew := h.newHook }
  { after with entityNew := saved }

/-- `_intercept_send_entity_request` (src/runa/execution.py lines 493-530):
saves `Entity.__getattribute__`, installs the wrapper, and in the finally
block restores the saved value to `Entity.__getattribute__`. -/
def interceptSendEntityRequest (h : Hooks) (p : Patches) (body : Patches → Patches) : Patches :=
  let saved := p.entityGetattr
  let after := body { p with entityGetattr := h.entityGetHook }
  { after with entityGetattr := saved }

/-- `_intercept_send_service_request` (src/runa/execution.py lines
533-580): saves `Service.__getattribute__` into `original_getattribute`,
installs the wrapper on `Service`, and in the finally block writes the
saved value back — onto `Entity.__getattribute__` (line 580), exactly as
the source does. -/
def interceptSendServiceRequest (h : Hooks) (p : Patches) (body : Patches → Patches) : Patches :=
  let saved := p.serviceGetattr
  let after := body { p with serviceGetattr := h.serviceGetHook }
  { after with entityGetattr := saved }

/-- `_intercept_interaction` (src/runa/execution.py lines 450-462): the
three context managers nested in source order; on exit they unwind
innermost first, so the service manager's finally runs first and the entity
manager's finally runs after it. -/
def interceptInteraction (h : Hooks) (p : Patches) (body : Patches → Patches) : Patches :=
  interceptCreateEntity h p (fun p₁ =>
    interceptSendEntityRequest h p₁ (fun p₂ =>
      interceptSendServiceRequest h p₂ body))

/-- What attribute lookup on an entity class yields for a name: nothing
(no such class attribute — note instance attributes such as a counter's
`value` live on the instance, not the class), a plain function
(`inspect.isfunction` holds), or some other class attribute. -/
inductive ClassAttr
  | func
  | nonFunc
deriving DecidableEq

/-- The outcome of one attribute access under the entity interception. -/
inductive GetattrResult
  | value (v : Val)
  | privateStateError
  | lookupError
  | methodStub (receiver : Nat) (methodName : String)
deriving DecidableEq

/-- Python's `name.startswith("_")`: the first character is an
underscore. -/
def nameIsPrivate (name : String) : Bool :=
  match name.data with
  | [] => false
  | c :: _ => c = '_'

/-- The `getattribute` wrapper of `_intercept_send_entity_request`
(src/runa/execution.py lines 499-523).  The subject is exempt and reads
through the original `__getattribute__` (modelled by `instanceLookup`).
For any other entity: a name beginning with an underscore raises
AttributeError("Entity state is private"); otherwise the name is looked up
on the entity's class by `getattr(type(entity), name)`, which raises a
plain AttributeError when the class has no such attribute; an attribute
that is not a function raises AttributeError("Entity state is private");
a function yields the bound stub. -/
def entityGetattribute (subject : Nat) (classAttrs : String → Option ClassAttr)
    (instanceLookup : String → Val) (entity : Nat) (name : String) : GetattrResult :=
  if entity = subject then .value (instanceLookup name)
  else if nameIsPrivate name then .privateStateError
  else match classAttrs name with
    | none => .lookupError
    | some .func => .methodStub entity name
    | some .nonFunc => .privateStateError

/-- Invoking the stub returned for a method of a non-subject entity
switches to the main greenlet with an `EntityRequestSent` message carrying
the receiver, the method name and the call arguments (src/runa/execution.py
lines 510-523). -/
def invokeStub (id trace : Nat) (receiver : Nat) (methodName : String)
    (args : List Val) (kwargs : KW) : Runa.RMsg :=
  .entityRequestSent id trace (.ref receiver) methodName args kwargs

/-- The class-attribute table of the Counter entity of
tests/execution/test_private_state.py: the methods are class attributes and
plain functions; the `value` attribute is created on the instance by
`__init__` and so is not a class attribute at all. -/
def counterClassAttrs : String → Option ClassAttr := fun name =>
  if name = "increment" then some .func
  else if name = "_increment" then some .func
  else if name = "read_private_state" then some .func
  else if name = "modify_private_state" then some .func
  else if name = "call_protected_method" then some .func
  else none

end Intercept

namespace EntityContract

/-- What can stop an Entity subclass definition: the TypeError raised by
`Entity.__init_subclass__` or `Entity.__new__` (the realization of
ContractViolation, src/runa/model/entity.py), or the ValueError raised by
unpacking `setstate_signature.parameters.values()` into exactly two names
(line 21). -/
inductive ContractKind
  | missingInit
  | missingGetstate
  | missingGetstateRetAnn
  | missingSetstate
  | setstateAnnMismatch
  | baseEntityInstantiated
deriving DecidableEq

/-- The failure of a class definition or instantiation. -/
inductive SubclassError
  | contractViolation (kind : ContractKind)
  | valueErrorUnpack
deriving DecidableEq

/-- The facts about a candidate subclass that `Entity.__init_subclass__`
inspects: whether `__init__` and `__getstate__` differ from `object`'s,
the declared return type of `__getstate__` (none when the signature has no
return ann), whether the class has a `__setstate__`, and the list of
`__setstate__` parameter type declarations in order, `self` included
(none for an undeclared one). -/
structure ClassSpec where
  hasCustomInit : Bool
  hasCustomGetstate : Bool
  getstateRetAnn : Option String
  hasSetstate : Bool
  setstateParamAnns : List (Option String)
deriving DecidableEq

/-- `Entity.__init_subclass__` (src/runa/model/entity.py lines 6-28), check
for check in source order: missing `__init__`; missing `__getstate__`;
`__getstate__` without a declared return type; missing `__setstate__`;
then the tuple unpacking `_, state_parameter = ...parameters.values()`,
which raises ValueError unless `__setstate__` declares exactly two
parameters; finally the state parameter's declared type must equal
`__getstate__`'s declared return type. -/
def validateSubclass (c : ClassSpec) : Except SubclassError Unit :=
  if !c.hasCustomInit then .error (.contractViolation .missingInit)
  else if !c.hasCustomGetstate then .error (.contractViolation .missingGetstate)
  else match c.getstateRetAnn with
    | none => .error (.contractViolation .missingGetstateRetAnn)
    | some retAnn =>
        if !c.hasSetstate then .error (.contractViolation .missingSetstate)
        else match c.setstateParamAnns with
          | [_, stateAnn] =>
              if stateAnn ≠ some retAnn then .error (.contractViolation .setstateAnnMismatch)
              else .ok ()
          | _ => .error .valueErrorUnpack

/-- `Entity.__new__` (src/runa/model/entity.py lines 30-33): instantiating
the abstract base class itself raises TypeError; any subclass passes
through to `object.__new__`. -/
def entityNew (clsIsBase : Bool) : Except SubclassError Unit :=
  if clsIsBase then .error (.contractViolation .baseEntityInstantiated) else .ok ()

/-- The declared type of the `__setstate__` state parameter: the second
entry of the parameter list, when there is one. -/
def stateParamAnn (c : ClassSpec) : Option String :=
  (c.setstateParamAnns.drop 1).headD none

end EntityContract

/-! ## Theorems -/

/-- A context always replays against itself. -/
theorem Execution.matchesCache_self (l : List Execution.Msg) :
    Execution.matchesCache l l = true := by
  induction l with
  | nil => rfl
  | cons a tl ih => simp [Execution.matchesCache, ih]

/-- Replaying exactly the cached context is a no-op: the engine is returned
unchanged and no outputs are produced. -/
theorem Execution.complete_self (b : Execution.EntityBehavior) (E : Execution.Engine) :
    Execution.complete b E E.ctx = .ok (E, []) := by
  cases E with
  | mk ctx pending subject =>
      simp [Execution.complete, Execution.matchesCache_self, List.drop_length,
        Execution.processAll]

/-- C1: completing `[CreateEntityRequestReceived(offset=0, args=(10,),
kwargs={})]` on a fresh engine for the counter entity returns exactly
`[CreateEntityResponseSent(1, 0), EntityStateChanged(2, state=10)]`; the
subject's state snapshot is then 10 and the cached context is the input
followed by the output. -/
theorem c1_first_initialization :
    Execution.complete Execution.counterB Execution.fE0 Execution.inputC1 =
      .ok ({ ctx := Execution.inputC1 ++ Execution.outC1, pending := [],
             subject := some (.nat 10) }, Execution.outC1) := rfl

/-- C2 (amended): after a successful `complete(E.context ++ I)` yielding
engine E₁, re-running `complete` on everything now cached — the call
`complete(E₁.context)` — returns the engine unchanged and the empty output
list.  Running the original call a second time is not idempotent (see the
counterexample). -/
theorem c2_idempotent_second_call (b : Execution.EntityBehavior)
    (E E₁ : Execution.Engine) (I P : List Execution.Msg)
    (h : Execution.complete b E (E.ctx ++ I) = .ok (E₁, P)) :
    Execution.complete b E₁ E₁.ctx = .ok (E₁, []) :=
  Execution.complete_self b E₁

/-- C2 witness: the amended theorem applied to the counter scenario. -/
theorem c2_idempotent_second_call_witness :
    Execution.complete Execution.counterB Execution.fE1 Execution.fE1.ctx =
      .ok (Execution.fE1, []) :=
  c2_idempotent_second_call Execution.counterB Execution.fE0 Execution.fE1
    Execution.inputC1 Execution.outC1 rfl

/-- C2 counterexample: the first `complete(E.context ++ I)` call on the
counter scenario succeeds with a non-empty output; running the same call
again returns no `[]` under either reading — with `E.context` re-evaluated
it fails with UnorderedOffsets, and with the original argument list it
fails with CacheMiss.  So completing `E.context ++ I` twice in a row is not
idempotent as stated. -/
theorem c2_not_idempotent_as_stated :
    Execution.complete Execution.counterB Execution.fE0
        (Execution.fE0.ctx ++ Execution.inputC1) =
      .ok (Execution.fE1, Execution.outC1)
  ∧ Execution.outC1 ≠ []
  ∧ Execution.complete Execution.counterB Execution.fE1
        (Execution.fE1.ctx ++ Execution.inputC1) = .error .unorderedOffsets
  ∧ Execution.complete Execution.counterB Execution.fE1
        (Execution.fE0.ctx ++ Execution.inputC1) = .error .cacheMiss :=
  ⟨rfl, by decide, rfl, rfl⟩

/-- C5: a task that terminates by raising a captured domain error makes the
engine emit, for a method-request initiator, exactly the
EntityMethodErrorSent message carrying the captured type, args and kwargs
followed by a state snapshot of the state at the raise point — and for a
create-request initiator exactly one CreateEntityErrorSent with the
captured type, args and kwargs and no state snapshot. -/
theorem c5_error_termination_outputs (cs : Execution.CallSt) (trace rq : Nat)
    (e : ErrRecord) (st : Val) :
    Execution.runTask cs trace (.method rq) (.raised (some e) st) =
      .ok { cs with
              ctr := cs.ctr + 2, subject := some st,
              queue := cs.queue ++ [.entityMethodErrorSent cs.ctr rq e,
                                    .entityStateChanged (cs.ctr + 1) st] }
  ∧ Execution.runTask cs trace (.create rq) (.raised (some e) st) =
      .ok { cs with
              ctr := cs.ctr + 1,
              queue := cs.queue ++ [.createEntityErrorSent cs.ctr rq e] } :=
  ⟨rfl, rfl⟩

/-- C6: on exit from `_intercept_interaction`, `Entity.__new__` and
`Entity.__getattribute__` are restored, but `Service.__getattribute__` is
left holding the installed wrapper: the service context manager's finally
block writes the saved original onto `Entity.__getattribute__` instead
(src/runa/execution.py line 580).  Concretely, with originals (0, 1, 2) and
wrappers (10, 11, 12) the slots end as (0, 1, 12) ≠ (0, 1, 2). -/
theorem c6_service_getattribute_not_restored :
    (∀ (h : Intercept.Hooks) (p : Intercept.Patches),
        Intercept.interceptInteraction h p id =
          { entityNew := p.entityNew, entityGetattr := p.entityGetattr,
            serviceGetattr := h.serviceGetHook })
  ∧ Intercept.interceptInteraction ⟨10, 11, 12⟩ ⟨0, 1, 2⟩ id ≠ ⟨0, 1, 2⟩ := by
  refine ⟨fun h p => rfl, by decide⟩

/-- C9: nothing in the engine's interface prevents a second
initialization: an input holding two create-request initiator messages
spawns the initializer for each one against the same subject slot.  Both
terminal pairs are emitted and the final subject state is the one the
second initializer computed. -/
theorem c9_reinitialization_not_prevented (g : List Val → KW → Val)
    (a₁ a₂ : List Val) (k₁ k₂ : KW) :
    Runa.runaExecute (Runa.retBehavior g) Runa.rFresh
        [.initRequestReceived 0 a₁ k₁, .initRequestReceived 1 a₂ k₂] =
      ({ entityState := some (g a₂ k₂),
         executions := [],
         expectations := [.initResponseSent 100 0, .stateChanged 101 (g a₁ k₁),
                          .initResponseSent 102 1, .stateChanged 103 (g a₂ k₂)],
         context := [.initRequestReceived 0 a₁ k₁,
                     .initRequestReceived 1 a₂ k₂,
                     .initResponseSent 100 0, .stateChanged 101 (g a₁ k₁),
                     .initResponseSent 102 1, .stateChanged 103 (g a₂ k₂)],
         nextId := 104 }, none) := rfl

/-- C10: when every check before the signature unpacking passes and
`__setstate__` declares a number of parameters different from two, class
creation fails with the tuple-unpacking ValueError, not with the contract
TypeError. -/
theorem c10_setstate_arity_value_error (c : EntityContract.ClassSpec)
    (h₁ : c.hasCustomInit = true) (h₂ : c.hasCustomGetstate = true)
    (h₃ : c.getstateRetAnn.isSome = true) (h₄ : c.hasSetstate = true)
    (h₅ : c.setstateParamAnns.length ≠ 2) :
    EntityContract.validateSubclass c = .error .valueErrorUnpack := by
  cases hr : c.getstateRetAnn with
  | none => rw [hr] at h₃; simp at h₃
  | some r =>
      rcases hl : c.setstateParamAnns with _ | ⟨a, _ | ⟨b, _ | ⟨x, tl⟩⟩⟩ <;>
        simp_all [EntityContract.validateSubclass]

/-- C10 witness: a class whose `__setstate__` declares three parameters. -/
theorem c10_setstate_arity_value_error_witness :
    EntityContract.validateSubclass
        { hasCustomInit := true, hasCustomGetstate := true,
          getstateRetAnn := some "int", hasSetstate := true,
          setstateParamAnns := [none, some "int", some "str"] } =
      .error .valueErrorUnpack :=
  c10_setstate_arity_value_error _ rfl rfl rfl rfl (by decide)

/-- C8: for a subclass whose `__setstate__`, if present, declares exactly
two parameters, the class definition fails with ContractViolation exactly
when the constructor, the snapshot or the restore operation is missing,
the snapshot operation lacks a declared return type, or the restore
parameter's declared type disagrees with the snapshot return type; and
instantiating the abstract base entity itself also fails with
ContractViolation. -/
theorem c8_contract_validation (c : EntityContract.ClassSpec)
    (harity : c.hasSetstate = true → c.setstateParamAnns.length = 2) :
    ((∃ k, EntityContract.validateSubclass c = .error (.contractViolation k)) ↔
      (c.hasCustomInit = false ∨ c.hasCustomGetstate = false
       ∨ c.getstateRetAnn = none ∨ c.hasSetstate = false
       ∨ EntityContract.stateParamAnn c ≠ c.getstateRetAnn))
  ∧ EntityContract.entityNew true = .error (.contractViolation .baseEntityInstantiated)
  ∧ EntityContract.entityNew false = .ok () := by
  refine ⟨?_, rfl, rfl⟩
  obtain ⟨i, g, r, st, params⟩ := c
  cases i
  · simp [EntityContract.validateSubclass]
  · cases g
    · simp [EntityContract.validateSubclass]
    · cases r with
      | none => simp [EntityContract.validateSubclass]
      | some rv =>
          cases st
          · simp [EntityContract.validateSubclass]
          · have hp : params.length = 2 := harity rfl
            match params, hp with
            | [a, b], _ =>
                by_cases hb : b = some rv <;>
                  simp [EntityContract.validateSubclass, EntityContract.stateParamAnn, hb]

/-- C8 witness: a subclass missing its constructor fails with
ContractViolation, through the amended characterization. -/
theorem c8_contract_validation_witness :
    ∃ k, EntityContract.validateSubclass
        { hasCustomInit := false, hasCustomGetstate := true,
          getstateRetAnn := some "int", hasSetstate := true,
          setstateParamAnns := [none, some "int"] } =
      .error (.contractViolation k) :=
  (c8_contract_validation
      { hasCustomInit := false, hasCustomGetstate := true,
        getstateRetAnn := some "int", hasSetstate := true,
        setstateParamAnns := [none, some "int"] }
      (fun _ => rfl)).1.mpr (Or.inl rfl)




/-- A task step never touches the cached context. -/
theorem Runa.rTaskStep_context (s : Runa.RunaState) (tr : Nat)
    (ic : Runa.RInitiator) (t : Runa.RTask) :
    (Runa.rTaskStep s tr ic t).context = s.context := by
  cases t with
  | pend intent resume => rfl
  | ret v st => cases ic <;> rfl

/-- One engine step only ever appends to the cached context. -/
theorem Runa.runaStep_context_extends (b : Runa.RBehavior) (s : Runa.RunaState)
    (m : Runa.RMsg) : ∃ t, (Runa.runaStep b s m).1.context = s.context ++ t := by
  cases m <;>
    simp only [Runa.runaStep, Runa.reqSentStep, Runa.finalSentStep] <;>
    repeat' split
  all_goals
    first
      | exact ⟨_, Runa.rTaskStep_context _ _ _ _⟩
      | exact ⟨_, rfl⟩
      | (refine ⟨[], ?_⟩; simp)

/-- C4 (amended): `Runa.execute` never rolls the cached context back — on
success and on failure alike, the post-call context extends the pre-call
context, so a failing call keeps every message processed before the
failure (it is not all-or-nothing). -/
theorem c4_context_only_extended (b : Runa.RBehavior) (input : List Runa.RMsg)
    (s : Runa.RunaState) :
    ∃ t, (Runa.runaExecute b s input).1.context = s.context ++ t := by
  induction input generalizing s with
  | nil => exact ⟨s.expectations, rfl⟩
  | cons m rest ih =>
      obtain ⟨t₀, h₀⟩ := Runa.runaStep_context_extends b s m
      simp only [Runa.runaExecute]
      rcases hstep : Runa.runaStep b s m with ⟨s', oe⟩
      rw [hstep] at h₀
      cases oe with
      | none =>
          obtain ⟨t₁, h₁⟩ := ih s'
          have h₀' : s'.context = s.context ++ t₀ := h₀
          exact ⟨t₀ ++ t₁, by rw [h₁, h₀', List.append_assoc]⟩
      | some err => exact ⟨t₀, h₀⟩

/-- C4 counterexample: a call that fails with the inconsistent-context
error (after an initialization already ran) leaves the cached context
holding the initiator message and the subject state holding the
initializer's result — both differ from their pre-call values, so the
failing call is not all-or-nothing. -/
theorem c4_failure_keeps_partial_state :
    (Runa.runaExecute Runa.counterRB Runa.rFresh
        [.initRequestReceived 0 [.nat 10] [], .initResponseSent 5 999]).2 =
      some .inconsistentContext
  ∧ (Runa.runaExecute Runa.counterRB Runa.rFresh
        [.initRequestReceived 0 [.nat 10] [], .initResponseSent 5 999]).1.context =
      [.initRequestReceived 0 [.nat 10] []]
  ∧ (Runa.runaExecute Runa.counterRB Runa.rFresh
        [.initRequestReceived 0 [.nat 10] [], .initResponseSent 5 999]).1.context ≠
      Runa.rFresh.context
  ∧ (Runa.runaExecute Runa.counterRB Runa.rFresh
        [.initRequestReceived 0 [.nat 10] [], .initResponseSent 5 999]).1.entityState =
      some (.nat 10)
  ∧ (Runa.runaExecute Runa.counterRB Runa.rFresh
        [.initRequestReceived 0 [.nat 10] [], .initResponseSent 5 999]).1.entityState ≠
      Runa.rFresh.entityState :=
  ⟨rfl, rfl, by decide, rfl, by decide⟩

/-- The source's expectation comparison agrees with equality-up-to-id on
every outbound message kind. -/
theorem Runa.matches_iff_agree (e x : Runa.RMsg) (ho : Runa.isOutbound e = true) :
    Runa.matchesExpectation e x = true ↔ Runa.setRId 0 e = Runa.setRId 0 x := by
  cases e <;> simp [Runa.isOutbound] at ho <;> cases x <;>
    simp [Runa.matchesExpectation, Runa.setRId, and_assoc]

/-- The terminal-sent matched-output branch succeeds exactly when the
source comparison accepts the popped head, and otherwise raises the
inconsistent-context failure. -/
theorem Runa.finalSentStep_spec (s : Runa.RunaState) (e x : Runa.RMsg)
    (rest : List Runa.RMsg) (hq : s.expectations = x :: rest) :
    ((Runa.finalSentStep s e).2 = none ↔ Runa.matchesExpectation e x = true)
  ∧ (Runa.matchesExpectation e x = false →
      (Runa.finalSentStep s e).2 = some .inconsistentContext) := by
  simp only [Runa.finalSentStep, hq]
  by_cases hm : Runa.matchesExpectation e x = true
  · simp [hm]
  · simp [hm]

/-- The intercepted-request matched-output branch succeeds exactly when
the source comparison accepts the popped head (given the engine invariant
that the expectation's execution is registered), and otherwise raises the
inconsistent-context failure. -/
theorem Runa.reqSentStep_spec (s : Runa.RunaState) (e x : Runa.RMsg)
    (rest : List Runa.RMsg) (hq : s.expectations = x :: rest)
    (hx : (Runa.lookupExec s.executions x.mid).isSome = true) :
    ((Runa.reqSentStep s e).2 = none ↔ Runa.matchesExpectation e x = true)
  ∧ (Runa.matchesExpectation e x = false →
      (Runa.reqSentStep s e).2 = some .inconsistentContext) := by
  simp only [Runa.reqSentStep, hq]
  by_cases hm : Runa.matchesExpectation e x = true
  · obtain ⟨en, hen⟩ := Option.isSome_iff_exists.mp hx
    simp [hm, hen]
  · simp [hm]

/-- C3 (amended): when the next input message is outbound (a terminal
`*Sent` or an intercepted `*RequestSent`), the engine pops the head of the
expectations queue and accepts the message exactly when it equals the
expectation on every field other than the message id; any disagreement on
those fields fails with the inconsistent-context error
(NotImplementedError("Inconsistent execution context") in the source).
The id field itself is never compared. -/
theorem c3_sent_matching_ignores_id (b : Runa.RBehavior) (s : Runa.RunaState)
    (e x : Runa.RMsg) (rest : List Runa.RMsg)
    (hq : s.expectations = x :: rest)
    (ho : Runa.isOutbound e = true)
    (hx : Runa.isReqSent e = true →
      (Runa.lookupExec s.executions x.mid).isSome = true) :
    ((Runa.runaStep b s e).2 = none ↔ Runa.setRId 0 e = Runa.setRId 0 x)
  ∧ (Runa.setRId 0 e ≠ Runa.setRId 0 x →
      (Runa.runaStep b s e).2 = some .inconsistentContext) := by
  have key : ((Runa.runaStep b s e).2 = none ↔ Runa.matchesExpectation e x = true)
      ∧ (Runa.matchesExpectation e x = false →
          (Runa.runaStep b s e).2 = some .inconsistentContext) := by
    cases e <;>
      first
        | exact Runa.finalSentStep_spec s _ x rest hq
        | exact Runa.reqSentStep_spec s _ x rest hq (hx rfl)
        | simp [Runa.isOutbound] at ho
  have hiff := Runa.matches_iff_agree e x ho
  refine ⟨by rw [key.1, hiff], fun hne => key.2 ?_⟩
  exact Bool.eq_false_iff.mpr (fun hm => hne (hiff.mp hm))

/-- C3 witness: a terminal sent message that agrees with the popped
expectation on everything but the id is accepted. -/
theorem c3_sent_matching_ignores_id_witness :
    (Runa.runaStep Runa.counterRB
        { entityState := none, executions := [],
          expectations := [.responseSent 5 0 (.nat 1)], context := [],
          nextId := 200 }
        (.responseSent 9 0 (.nat 1))).2 = none :=
  ((c3_sent_matching_ignores_id Runa.counterRB
      { entityState := none, executions := [],
        expectations := [.responseSent 5 0 (.nat 1)], context := [],
        nextId := 200 }
      (.responseSent 9 0 (.nat 1)) (.responseSent 5 0 (.nat 1)) []
      rfl rfl (fun hr => Bool.noConfusion hr)).1).mpr (by decide)

/-- C3 counterexample: an input message that differs from the popped
expectation in its id field — a genuine structural disagreement — is
accepted without any failure, so the engine does not compare every field
by value. -/
theorem c3_id_disagreement_accepted :
    (Runa.runaStep Runa.counterRB
        { entityState := none, executions := [],
          expectations := [.initResponseSent 5 0], context := [],
          nextId := 200 }
        (.initResponseSent 99 0)).2 = none
  ∧ (Runa.RMsg.initResponseSent 99 0 ≠ .initResponseSent 5 0) :=
  ⟨rfl, by decide⟩

/-- C7: reading another counter's `value` — a public name that is an
instance attribute and so resolves to no class attribute — fails with the
plain AttributeError of `getattr(type(entity), name)` rather than the
AttributeError("Entity state is private") guard, although the repository's
own test (tests/execution/test_private_state.py,
test_read_private_state_then_error_state_is_private) demands the latter.
The remaining behaviour is as claimed: underscore names and non-function
class attributes fail with the private-state guard, a function yields the
stub whose invocation emits EntityRequestSent, and the subject reads
through unrestricted. -/
theorem c7_missing_attribute_not_private_state :
    Intercept.entityGetattribute 0 Intercept.counterClassAttrs
        (fun _ => .nat 10) 1 "value" = .lookupError
  ∧ Intercept.GetattrResult.lookupError ≠ .privateStateError
  ∧ Intercept.entityGetattribute 0 Intercept.counterClassAttrs
        (fun _ => .nat 10) 1 "_increment" = .privateStateError
  ∧ Intercept.entityGetattribute 0 Intercept.counterClassAttrs
        (fun _ => .nat 10) 1 "increment" = .methodStub 1 "increment"
  ∧ Intercept.entityGetattribute 0 Intercept.counterClassAttrs
        (fun _ => .nat 10) 0 "value" = .value (.nat 10)
  ∧ Intercept.invokeStub 7 3 1 "increment" [.nat 1] [] =
      .entityRequestSent 7 3 (.ref 1) "increment" [.nat 1] [] :=
  ⟨by decide, by decide, by decide, by decide, by decide, rfl⟩
